import Mathlib

/-!
Shallow embedding of the chat / moderation / rate-limiting workflow of the
rental-listing application (source: `src/listings/views.py`,
`src/listings/admin.py`, `src/listings/models.py`).

Machine-independent conventions:
* time is modelled as `Nat` (seconds); the shared key-value cache stores a
  value together with its absolute expiry time;
* database tables are modelled as Lean lists in insertion order;
* fallible request handlers return an explicit result value next to the
  updated state.
-/

/- ### Login rate limiting (`src/listings/views.py`, lines 24-81, 236-285) -/

def LOGIN_WINDOW_SECONDS : Nat := 60

def LOGIN_MAX_ATTEMPTS_PER_IP : Nat := 5

def LOGIN_LOCK_SECONDS : Nat := 15 * 60

def LOGIN_MAX_FAILURES_BEFORE_LOCK : Nat := 10

/-- Keys of the shared cache.  The code builds string keys
`"auth:window:ip"` (`_window_key`), `"auth:fail:ip:user"` (`_fail_key`) and
`"auth:lock:ip:user"` (`_lock_key`) whose three prefixes are pairwise
distinct, so the string key space is isomorphic to this structured type.
The username component is normalised with `lower().strip()` before key
construction; `normUser` below applies that normalisation. -/
inductive CacheKey where
  | window (ip : String)
  | fail (ip : String) (user : String)
  | lock (ip : String) (user : String)
deriving DecidableEq

/-- Python `str.lower`, modelled over the character list (executable by the
kernel, unlike `String.toLower`). -/
def pyLower (s : String) : String := ⟨s.data.map Char.toLower⟩

/-- Python `str.strip`: drop leading and trailing whitespace. -/
def pyStrip (s : String) : String :=
  ⟨((s.data.dropWhile Char.isWhitespace).reverse.dropWhile Char.isWhitespace).reverse⟩

/-- Normalisation `username.lower().strip()` as used by `_lock_key` and `_fail_key`. -/
def normUser (u : String) : String := pyStrip (pyLower u)

/-- The cache maps a key to a stored value and its absolute expiry time.
An entry is live at time `now` iff `now` is strictly before the expiry. -/
def Cache : Type := CacheKey → Option (Nat × Nat)

/-- Model of `cache.get(key)`: the stored value unless the entry is absent or expired. -/
def cacheGet (c : Cache) (now : Nat) (k : CacheKey) : Option Nat :=
  match c k with
  | some (v, e) => if now < e then some v else none
  | none => none

/-- Model of `cache.set(key, value, ttl)`: store `v` with expiry `now + ttl`. -/
def cacheSet (c : Cache) (now : Nat) (k : CacheKey) (v : Nat) (ttl : Nat) : Cache :=
  fun j => if j = k then some (v, now + ttl) else c j

/-- Model of `cache.delete(key)`. -/
def cacheDelete (c : Cache) (k : CacheKey) : Cache :=
  fun j => if j = k then none else c j

/-- The cached value read as a number, with `0` for a missing entry
(`cache.get(key, 0)`). -/
def effectiveCount (c : Cache) (now : Nat) (k : CacheKey) : Nat :=
  (cacheGet c now k).getD 0

/-- Embedding of `_is_rate_limited` (views.py lines 58-64): reads the per-IP window
counter; at or above the cap it reports limited without touching the cache,
otherwise it stores the incremented counter with a fresh window TTL. -/
def is_rate_limited (c : Cache) (now : Nat) (ip : String) : Bool × Cache :=
  let attempts := effectiveCount c now (.window ip)
  if LOGIN_MAX_ATTEMPTS_PER_IP ≤ attempts then (true, c)
  else (false, cacheSet c now (.window ip) (attempts + 1) LOGIN_WINDOW_SECONDS)

/-- Embedding of `_is_locked` (views.py lines 67-68): `bool(cache.get(lock_key))`. -/
def is_locked (c : Cache) (now : Nat) (ip u : String) : Bool :=
  (effectiveCount c now (.lock ip (normUser u))) != 0

/-- Embedding of `_register_login_failure` (views.py lines 71-76): bump the per-pair
failure counter with the lock TTL; when the counter reaches the failure cap
also set the lock flag with the lock TTL. -/
def register_login_failure (c : Cache) (now : Nat) (ip u : String) : Cache :=
  let key := CacheKey.fail ip (normUser u)
  let failures := effectiveCount c now key + 1
  let c1 := cacheSet c now key failures LOGIN_LOCK_SECONDS
  if LOGIN_MAX_FAILURES_BEFORE_LOCK ≤ failures then
    cacheSet c1 now (.lock ip (normUser u)) 1 LOGIN_LOCK_SECONDS
  else c1

/-- Embedding of `_clear_login_protection` (views.py lines 79-81). -/
def clear_login_protection (c : Cache) (ip u : String) : Cache :=
  cacheDelete (cacheDelete c (.fail ip (normUser u))) (.lock ip (normUser u))

/-- Form error shown on the per-IP throttle (views.py line 246). -/
def tooManyAttemptsError : String :=
  "Занадто багато спроб входу з вашої IP-адреси. Спробуйте через хвилину."

/-- Form error shown on the per-pair lock (views.py line 259). -/
def lockedPairError : String :=
  "Акаунт тимчасово заблоковано через багато невдалих спроб входу. Спробуйте пізніше."

/-- One login POST.  `username` is the POSTed username, already
whitespace-stripped as on views.py line 237.  `credentialsValid` abstracts
the outcome of `LoginForm.is_valid()` (framework credential check);
`canonical` is `user.get_username()` of the authenticated user, which under
the framework's exact-match authentication equals the submitted username. -/
structure LoginRequest where
  username : String
  credentialsValid : Bool
  canonical : String
deriving DecidableEq

/-- Observable outcome of `login_view` on a POST: HTTP status, whether a
session was established, whether the credential check (`form.is_valid`) was
ever reached, and the non-field form error, if any. -/
structure LoginResponse where
  status : Nat
  loggedIn : Bool
  credentialChecked : Bool
  formError : Option String
deriving DecidableEq

/-- Embedding of `login_view` (views.py lines 236-285), POST branch.  Order of checks as
in the code: per-IP window throttle first (which also counts the attempt),
then the per-pair lock for a non-empty username, then the credential check;
success logs in, redirects and clears the per-pair protection, failure with
a non-empty username registers a failure and renders with status 400. -/
def login_view (c : Cache) (now : Nat) (ip : String) (req : LoginRequest) :
    LoginResponse × Cache :=
  let r := is_rate_limited c now ip
  let c1 := r.2
  if r.1 then
    ({ status := 429, loggedIn := false, credentialChecked := false,
       formError := some tooManyAttemptsError }, c1)
  else if (req.username != "") && is_locked c1 now ip req.username then
    ({ status := 429, loggedIn := false, credentialChecked := false,
       formError := some lockedPairError }, c1)
  else if req.credentialsValid then
    ({ status := 302, loggedIn := true, credentialChecked := true,
       formError := none }, clear_login_protection c1 ip req.canonical)
  else
    ({ status := 400, loggedIn := false, credentialChecked := true,
       formError := none },
     if req.username != "" then register_login_failure c1 now ip req.username else c1)

/-- A timed login POST from some client IP. -/
structure LoginEvent where
  time : Nat
  ip : String
  req : LoginRequest

/-- Run a sequence of login POSTs, pairing each event with its response. -/
def runLogins : Cache → List LoginEvent → List (LoginEvent × LoginResponse) × Cache
  | c, [] => ([], c)
  | c, e :: es =>
    let r := login_view c e.time e.ip e.req
    let rest := runLogins r.2 es
    ((e, r.1) :: rest.1, rest.2)

/-- A response produced by the per-IP window throttle (it carries the
generic too-many-attempts form error, which no other branch produces). -/
def rateLimitRejected (r : LoginResponse) : Bool :=
  r.formError == some tooManyAttemptsError

/-- The attempt came from `ip`, fell in the window `[T, T+60)` and was
allowed to proceed past the per-IP throttle. -/
def proceededInWindow (ip : String) (T : Nat) (p : LoginEvent × LoginResponse) : Bool :=
  p.1.ip == ip && decide (T ≤ p.1.time) && decide (p.1.time < T + LOGIN_WINDOW_SECONDS)
    && !(rateLimitRejected p.2)

/- Abstract single-counter view of the per-IP window key, used to prove the
sliding-window bound. -/

/-- One step of the window counter at time `now`:
exactly `_is_rate_limited` projected to the single per-IP window cache key
(first component: limited?; second: the key's new entry). -/
def wstep (s : Option (Nat × Nat)) (now : Nat) : Bool × Option (Nat × Nat) :=
  let attempts := match s with
    | some (v, e) => if now < e then v else 0
    | none => 0
  if LOGIN_MAX_ATTEMPTS_PER_IP ≤ attempts then (true, s)
  else (false, some (attempts + 1, now + LOGIN_WINDOW_SECONDS))

/-- Number of attempts, among the timestamps `ts`, that fall in the window
`[T, T+60)` and are allowed to proceed by the counter started in state `s`. -/
def wcount : Option (Nat × Nat) → List Nat → Nat → Nat
  | _, [], _ => 0
  | s, t :: ts, T =>
    (if T ≤ t ∧ t < T + LOGIN_WINDOW_SECONDS ∧ (wstep s t).1 = false then 1 else 0)
    + wcount (wstep s t).2 ts T

/-- Timestamps of the events coming from `ip`, in trace order. -/
def ipTimes (ip : String) (evs : List LoginEvent) : List Nat :=
  (evs.filter (fun e => e.ip == ip)).map LoginEvent.time

/- ### Window-counter lemmas -/

/-- Effective value of a window-key entry at time `now` (0 when expired). -/
def weff : Option (Nat × Nat) → Nat → Nat
  | some (v, e), now => if now < e then v else 0
  | none, _ => 0

theorem effectiveCount_eq_weff (c : Cache) (now : Nat) (k : CacheKey) :
    effectiveCount c now k = weff (c k) now := by
  unfold effectiveCount cacheGet
  cases h : c k with
  | none => rfl
  | some p =>
    obtain ⟨v, e⟩ := p
    show (if now < e then some v else none).getD 0 = if now < e then v else 0
    by_cases hlt : now < e
    · rw [if_pos hlt, if_pos hlt]
      rfl
    · rw [if_neg hlt, if_neg hlt]
      rfl

theorem wstep_eq (s : Option (Nat × Nat)) (now : Nat) :
    wstep s now = if LOGIN_MAX_ATTEMPTS_PER_IP ≤ weff s now then (true, s)
      else (false, some (weff s now + 1, now + LOGIN_WINDOW_SECONDS)) := by
  unfold wstep weff
  cases s with
  | none => rfl
  | some p => cases p; rfl

theorem wcount_eq_zero_of_past : ∀ (ts : List Nat) (s : Option (Nat × Nat)) (T : Nat),
    (∀ t ∈ ts, T + LOGIN_WINDOW_SECONDS ≤ t) → wcount s ts T = 0
  | [], _, _, _ => rfl
  | t :: ts, s, T, h => by
    have ht : T + LOGIN_WINDOW_SECONDS ≤ t := h t (by simp)
    have h1 : wcount (wstep s t).2 ts T = 0 :=
      wcount_eq_zero_of_past ts _ T (fun t' ht' => h t' (by simp [ht']))
    simp only [wcount, h1]
    rw [if_neg]
    · rintro ⟨-, h3, -⟩
      omega

/-- In a window whose end the counter entry outlives, the counter only
accumulates: starting from value `c`, at most `5 - c` more attempts are let
through inside the window. -/
theorem wcount_le_of_live : ∀ (ts : List Nat) (cv e T : Nat),
    ts.Pairwise (· ≤ ·) → T + LOGIN_WINDOW_SECONDS ≤ e → (∀ t ∈ ts, T ≤ t) →
    wcount (some (cv, e)) ts T
      ≤ LOGIN_MAX_ATTEMPTS_PER_IP - min cv LOGIN_MAX_ATTEMPTS_PER_IP
  | [], _, _, _, _, _, _ => Nat.zero_le _
  | t :: ts, cv, e, T, hsort, he, hT => by
    have hpair := List.pairwise_cons.mp hsort
    have hTt : T ≤ t := hT t (by simp)
    rcases Nat.lt_or_ge t (T + LOGIN_WINDOW_SECONDS) with hwin | hwin
    · -- `t` is inside the window and the entry is live at `t`
      have hlive : t < e := by omega
      have heff : weff (some (cv, e)) t = cv := by
        show (if t < e then cv else 0) = cv
        rw [if_pos hlive]
      rcases Nat.lt_or_ge cv LOGIN_MAX_ATTEMPTS_PER_IP with hcv | hcv
      · -- attempt allowed: counter becomes cv+1 with a fresh, still-live TTL
        have hstep : wstep (some (cv, e)) t
            = (false, some (cv + 1, t + LOGIN_WINDOW_SECONDS)) := by
          rw [wstep_eq, heff, if_neg (by omega)]
        have hrec := wcount_le_of_live ts (cv + 1) (t + LOGIN_WINDOW_SECONDS) T
          hpair.2 (by omega) (fun t' ht' => le_trans hTt (hpair.1 t' ht'))
        simp only [wcount, hstep]
        split <;> omega
      · -- attempt limited: state unchanged
        have hstep : wstep (some (cv, e)) t = (true, some (cv, e)) := by
          rw [wstep_eq, heff, if_pos hcv]
        have hrec := wcount_le_of_live ts cv e T
          hpair.2 he (fun t' ht' => le_trans hTt (hpair.1 t' ht'))
        simp only [wcount, hstep]
        split
        · rename_i hcond
          exact absurd hcond.2.2 (by simp)
        · omega
    · -- `t` and everything after it lie past the window
      have h0 : wcount (wstep (some (cv, e)) t).2 ts T = 0 :=
        wcount_eq_zero_of_past ts _ T
          (fun t' ht' => le_trans hwin (hpair.1 t' ht'))
      simp only [wcount, h0]
      split
      · rename_i hcond
        exact absurd hcond.2.1 (by omega)
      · omega

/-- The sliding-window bound for the abstract counter: along any
time-ordered attempt trace, from any starting entry, at most 5 attempts
inside any 60-second window are let through. -/
theorem wcount_le : ∀ (ts : List Nat) (s : Option (Nat × Nat)) (T : Nat),
    ts.Pairwise (· ≤ ·) → wcount s ts T ≤ LOGIN_MAX_ATTEMPTS_PER_IP
  | [], _, _, _ => Nat.zero_le _
  | t :: ts, s, T, hsort => by
    have hpair := List.pairwise_cons.mp hsort
    rcases Nat.lt_or_ge t T with hlt | hge
    · -- before the window: does not count
      have hrec := wcount_le ts (wstep s t).2 T hpair.2
      simp only [wcount]
      split
      · rename_i hcond
        exact absurd hcond.1 (by omega)
      · omega
    · rcases Nat.lt_or_ge t (T + LOGIN_WINDOW_SECONDS) with hwin | hwin
      · -- inside the window
        rcases Nat.lt_or_ge (weff s t) LOGIN_MAX_ATTEMPTS_PER_IP with heff | heff
        · -- allowed: afterwards the entry is live past the window end
          have hstep : wstep s t
              = (false, some (weff s t + 1, t + LOGIN_WINDOW_SECONDS)) := by
            rw [wstep_eq, if_neg (by omega)]
          have hrec := wcount_le_of_live ts (weff s t + 1) (t + LOGIN_WINDOW_SECONDS) T
            hpair.2 (by omega) (fun t' ht' => le_trans hge (hpair.1 t' ht'))
          simp only [wcount, hstep]
          split <;> omega
        · -- limited: state unchanged, nothing counted
          have hstep : wstep s t = (true, s) := by
            rw [wstep_eq, if_pos heff]
          have hrec := wcount_le ts s T hpair.2
          simp only [wcount, hstep]
          split
          · rename_i hcond
            exact absurd hcond.2.2 (by simp)
          · omega
      · -- past the window: nothing counts any more
        have h0 : wcount (wstep s t).2 ts T = 0 :=
          wcount_eq_zero_of_past ts _ T
            (fun t' ht' => le_trans hwin (hpair.1 t' ht'))
        simp only [wcount, h0]
        split
        · rename_i hcond
          exact absurd hcond.2.1 (by omega)
        · omega

/- ### Projection of `login_view` onto the per-IP window key -/

theorem is_rate_limited_eq (c : Cache) (now : Nat) (ip : String) :
    is_rate_limited c now ip =
      ((wstep (c (.window ip)) now).1,
       fun k => if k = CacheKey.window ip then (wstep (c (.window ip)) now).2 else c k) := by
  rw [wstep_eq]
  simp only [is_rate_limited, effectiveCount_eq_weff]
  by_cases h : LOGIN_MAX_ATTEMPTS_PER_IP ≤ weff (c (CacheKey.window ip)) now
  · rw [if_pos h, if_pos h]
    simp only [Prod.mk.injEq, true_and]
    funext k
    by_cases hk : k = CacheKey.window ip
    · rw [if_pos hk, hk]
    · rw [if_neg hk]
  · rw [if_neg h, if_neg h]
    simp only [Prod.mk.injEq, true_and]
    funext k
    rfl

theorem clear_login_protection_window (c : Cache) (ip' u ip : String) :
    clear_login_protection c ip' u (.window ip) = c (.window ip) := by
  simp [clear_login_protection, cacheDelete]

theorem register_login_failure_window (c : Cache) (now : Nat) (ip' u ip : String) :
    register_login_failure c now ip' u (.window ip) = c (.window ip) := by
  simp only [register_login_failure]
  split <;> simp [cacheSet]

/-- On the per-IP window key, `login_view` acts exactly as `_is_rate_limited`
does: the later lock / credential / failure bookkeeping never touches it. -/
theorem login_view_window (c : Cache) (now : Nat) (ip' : String) (req : LoginRequest)
    (ip : String) :
    (login_view c now ip' req).2 (.window ip) = (is_rate_limited c now ip').2 (.window ip) := by
  simp only [login_view]
  split
  · rfl
  · split
    · rfl
    · split
      · exact clear_login_protection_window _ ip' req.canonical ip
      · split
        · exact register_login_failure_window _ now ip' req.username ip
        · rfl

theorem login_view_rateLimitRejected (c : Cache) (now : Nat) (ip : String)
    (req : LoginRequest) :
    rateLimitRejected (login_view c now ip req).1 = (is_rate_limited c now ip).1 := by
  simp only [login_view]
  split
  · rename_i h
    rw [h]
    rfl
  · rename_i h
    rw [Bool.not_eq_true] at h
    rw [h]
    split
    · show (some lockedPairError == some tooManyAttemptsError) = false
      decide
    · split <;> rfl

/-- The per-IP proceed/reject trace of `login_view` coincides with the
abstract window counter run on the timestamps of that IP's attempts. -/
theorem runLogins_countP : ∀ (evs : List LoginEvent) (c : Cache) (ip : String) (T : Nat),
    (runLogins c evs).1.countP (proceededInWindow ip T)
      = wcount (c (.window ip)) (ipTimes ip evs) T
  | [], _, _, _ => rfl
  | e :: es, c, ip, T => by
    have hrec := runLogins_countP es (login_view c e.time e.ip e.req).2 ip T
    simp only [runLogins, List.countP_cons]
    by_cases hip : e.ip = ip
    · have hfil : ipTimes ip (e :: es) = e.time :: ipTimes ip es := by
        simp [ipTimes, List.filter_cons, hip]
      have hwkey : (login_view c e.time e.ip e.req).2 (.window ip)
          = (wstep (c (.window ip)) e.time).2 := by
        rw [login_view_window, hip, is_rate_limited_eq]
        simp
      have hrr : rateLimitRejected (login_view c e.time e.ip e.req).1
          = (wstep (c (.window ip)) e.time).1 := by
        rw [login_view_rateLimitRejected, is_rate_limited_eq, hip]
      have hind : (if proceededInWindow ip T (e, (login_view c e.time e.ip e.req).1) = true
            then 1 else 0)
          = (if T ≤ e.time ∧ e.time < T + LOGIN_WINDOW_SECONDS
                ∧ (wstep (c (.window ip)) e.time).1 = false then 1 else 0) := by
        refine if_congr ?_ rfl rfl
        rw [hip] at hrr
        simp [proceededInWindow, hip, hrr, and_assoc]
      rw [hfil, hrec, hwkey, hind]
      simp only [wcount]
      rw [Nat.add_comm]
    · have hfil : ipTimes ip (e :: es) = ipTimes ip es := by
        simp [ipTimes, List.filter_cons, hip]
      have hwkey : (login_view c e.time e.ip e.req).2 (.window ip) = c (.window ip) := by
        rw [login_view_window, is_rate_limited_eq]
        show (if CacheKey.window ip = CacheKey.window e.ip then _ else c (.window ip))
          = c (.window ip)
        rw [if_neg]
        intro h
        rw [CacheKey.window.injEq] at h
        exact hip h.symm
      have hind : proceededInWindow ip T (e, (login_view c e.time e.ip e.req).1) = false := by
        simp [proceededInWindow, hip]
      rw [hfil, hrec, hwkey, hind]
      simp

/-- C3: for every IP address, along any time-ordered sequence of login
POSTs, at most 5 attempts whose timestamps fall in any one 60-second window
are allowed past the per-IP throttle; and an attempt the throttle rejects
gets HTTP 429 with the generic too-many-attempts form error, with the
credential check never reached. -/
theorem C3_per_ip_login_throttle (c : Cache) (evs : List LoginEvent) (ip : String)
    (T now : Nat) (req : LoginRequest)
    (hsorted : (evs.map LoginEvent.time).Pairwise (· ≤ ·)) :
    (runLogins c evs).1.countP (proceededInWindow ip T) ≤ LOGIN_MAX_ATTEMPTS_PER_IP
    ∧ ((is_rate_limited c now ip).1 = true →
        (login_view c now ip req).1 =
          { status := 429, loggedIn := false, credentialChecked := false,
            formError := some tooManyAttemptsError }) := by
  constructor
  · rw [runLogins_countP]
    apply wcount_le
    exact List.Pairwise.sublist (List.Sublist.map LoginEvent.time (List.filter_sublist evs)) hsorted
  · intro h
    simp only [login_view]
    rw [if_pos h]

def demoLoginReq : LoginRequest :=
  { username := "alice", credentialsValid := false, canonical := "alice" }

def demoLoginEvents : List LoginEvent :=
  [⟨0, "10.0.0.1", demoLoginReq⟩, ⟨5, "10.0.0.1", demoLoginReq⟩,
   ⟨10, "10.0.0.1", demoLoginReq⟩, ⟨15, "10.0.0.1", demoLoginReq⟩,
   ⟨20, "10.0.0.1", demoLoginReq⟩, ⟨25, "10.0.0.1", demoLoginReq⟩]

/-- Closed instance of the C3 theorem on a concrete six-attempt trace. -/
theorem C3_per_ip_login_throttle_witness :
    (runLogins (fun _ => none) demoLoginEvents).1.countP (proceededInWindow "10.0.0.1" 0)
        ≤ LOGIN_MAX_ATTEMPTS_PER_IP
    ∧ ((is_rate_limited (fun _ => none) 0 "10.0.0.1").1 = true →
        (login_view (fun _ => none) 0 "10.0.0.1" demoLoginReq).1 =
          { status := 429, loggedIn := false, credentialChecked := false,
            formError := some tooManyAttemptsError }) :=
  C3_per_ip_login_throttle (fun _ => none) demoLoginEvents "10.0.0.1" 0 0 demoLoginReq
    (by decide)

/- ### Per-(IP, username) failure counter and lock (claims C4, C9) -/

theorem is_rate_limited_snd_apply (c : Cache) (now : Nat) (ip : String) (k : CacheKey) :
    (is_rate_limited c now ip).2 k
      = if k = CacheKey.window ip then (wstep (c (.window ip)) now).2 else c k := by
  rw [is_rate_limited_eq]

theorem is_rate_limited_fail_key (c : Cache) (now : Nat) (ip ip' u : String) :
    (is_rate_limited c now ip).2 (.fail ip' u) = c (.fail ip' u) := by
  rw [is_rate_limited_snd_apply]
  simp

theorem is_rate_limited_lock_key (c : Cache) (now : Nat) (ip ip' u : String) :
    (is_rate_limited c now ip).2 (.lock ip' u) = c (.lock ip' u) := by
  rw [is_rate_limited_snd_apply]
  simp

theorem effectiveCount_congr {c c' : Cache} (now : Nat) (k : CacheKey) (h : c k = c' k) :
    effectiveCount c now k = effectiveCount c' now k := by
  unfold effectiveCount cacheGet
  rw [h]

theorem is_locked_rate_limited (c : Cache) (now : Nat) (ip ip' u : String) :
    is_locked (is_rate_limited c now ip).2 now ip' u = is_locked c now ip' u := by
  unfold is_locked
  rw [effectiveCount_congr now _ (is_rate_limited_lock_key c now ip ip' (normUser u))]

theorem register_login_failure_fail_key (c : Cache) (now : Nat) (ip u : String) :
    register_login_failure c now ip u (.fail ip (normUser u))
      = some (effectiveCount c now (.fail ip (normUser u)) + 1, now + LOGIN_LOCK_SECONDS) := by
  simp only [register_login_failure]
  split <;> simp [cacheSet]

theorem register_login_failure_lock_key (c : Cache) (now : Nat) (ip u : String) :
    register_login_failure c now ip u (.lock ip (normUser u))
      = if LOGIN_MAX_FAILURES_BEFORE_LOCK ≤ effectiveCount c now (.fail ip (normUser u)) + 1
        then some (1, now + LOGIN_LOCK_SECONDS)
        else c (.lock ip (normUser u)) := by
  simp only [register_login_failure]
  by_cases h : LOGIN_MAX_FAILURES_BEFORE_LOCK ≤ effectiveCount c now (.fail ip (normUser u)) + 1
  · rw [if_pos h, if_pos h]
    simp [cacheSet]
  · rw [if_neg h, if_neg h]
    simp [cacheSet]

/-- C4: each failed credential check stores the incremented per-pair failure
counter with the 900-second TTL and, once the counter reaches 10, sets the
lock flag with the same TTL (below 10 the lock entry is untouched); while
the lock flag is live, the attempt is rejected with HTTP 429 and no session
is established, whatever the credentials; a successful login deletes both
the failure counter and the lock flag of the pair. -/
theorem C4_per_pair_failure_lock (c : Cache) (now : Nat) (ip : String) (req : LoginRequest) :
    ((is_rate_limited c now ip).1 = false →
     is_locked c now ip req.username = false →
     req.credentialsValid = false →
     req.username ≠ "" →
       (login_view c now ip req).2 (.fail ip (normUser req.username))
         = some (effectiveCount c now (.fail ip (normUser req.username)) + 1,
             now + LOGIN_LOCK_SECONDS)
       ∧ (LOGIN_MAX_FAILURES_BEFORE_LOCK
             ≤ effectiveCount c now (.fail ip (normUser req.username)) + 1 →
           (login_view c now ip req).2 (.lock ip (normUser req.username))
             = some (1, now + LOGIN_LOCK_SECONDS))
       ∧ (effectiveCount c now (.fail ip (normUser req.username)) + 1
             < LOGIN_MAX_FAILURES_BEFORE_LOCK →
           (login_view c now ip req).2 (.lock ip (normUser req.username))
             = c (.lock ip (normUser req.username))))
    ∧ (req.username ≠ "" →
       is_locked c now ip req.username = true →
         (login_view c now ip req).1.status = 429
         ∧ (login_view c now ip req).1.loggedIn = false)
    ∧ ((login_view c now ip req).1.loggedIn = true →
         (login_view c now ip req).2 (.fail ip (normUser req.canonical)) = none
         ∧ (login_view c now ip req).2 (.lock ip (normUser req.canonical)) = none) := by
  refine ⟨?_, ?_, ?_⟩
  · intro hnl hnlock hvalid hu
    have h1 : ¬((is_rate_limited c now ip).1 = true) := by
      rw [hnl]
      exact Bool.false_ne_true
    have hlock1 : is_locked (is_rate_limited c now ip).2 now ip req.username = false := by
      rw [is_locked_rate_limited]
      exact hnlock
    have h2 : ¬((req.username != "" && is_locked (is_rate_limited c now ip).2 now ip
        req.username) = true) := by
      rw [hlock1, Bool.and_false]
      exact Bool.false_ne_true
    have h3 : ¬(req.credentialsValid = true) := by
      rw [hvalid]
      exact Bool.false_ne_true
    have hec : effectiveCount (is_rate_limited c now ip).2 now (.fail ip (normUser req.username))
        = effectiveCount c now (.fail ip (normUser req.username)) :=
      effectiveCount_congr now _ (is_rate_limited_fail_key c now ip ip (normUser req.username))
    simp only [login_view]
    rw [if_neg h1, if_neg h2, if_neg h3, if_pos (bne_iff_ne.mpr hu)]
    refine ⟨?_, ?_, ?_⟩
    · show register_login_failure _ now ip req.username (.fail ip (normUser req.username)) = _
      rw [register_login_failure_fail_key, hec]
    · intro hten
      show register_login_failure _ now ip req.username (.lock ip (normUser req.username)) = _
      rw [register_login_failure_lock_key, hec, if_pos hten]
    · intro hlt
      show register_login_failure _ now ip req.username (.lock ip (normUser req.username)) = _
      rw [register_login_failure_lock_key, hec, if_neg (by omega)]
      exact is_rate_limited_lock_key c now ip ip (normUser req.username)
  · intro hu hlock
    simp only [login_view]
    split
    · exact ⟨rfl, rfl⟩
    · split
      · exact ⟨rfl, rfl⟩
      · rename_i hnr hcond
        exfalso
        apply hcond
        rw [Bool.and_eq_true]
        exact ⟨bne_iff_ne.mpr hu, by rw [is_locked_rate_limited]; exact hlock⟩
  · simp only [login_view]
    split
    · intro h
      exact Bool.noConfusion h
    · split
      · intro h
        exact Bool.noConfusion h
      · split
        · intro _
          constructor
          · show clear_login_protection _ ip req.canonical (.fail ip (normUser req.canonical))
              = none
            simp [clear_login_protection, cacheDelete]
          · show clear_login_protection _ ip req.canonical (.lock ip (normUser req.canonical))
              = none
            simp [clear_login_protection, cacheDelete]
        · intro h
          exact Bool.noConfusion h

def lockedDemoCache : Cache :=
  fun k => if k = CacheKey.lock "7.7.7.7" "eve" then some (1, 900) else none

def lockedDemoReq : LoginRequest :=
  { username := "eve", credentialsValid := true, canonical := "eve" }

/-- Closed instance of C4: with the pair lock flag live, even a request
with correct credentials gets HTTP 429 and no session. -/
theorem C4_per_pair_failure_lock_witness :
    (login_view lockedDemoCache 0 "7.7.7.7" lockedDemoReq).1.status = 429
    ∧ (login_view lockedDemoCache 0 "7.7.7.7" lockedDemoReq).1.loggedIn = false :=
  (C4_per_pair_failure_lock lockedDemoCache 0 "7.7.7.7" lockedDemoReq).2.1
    (by decide) (by decide)

def goodDemoReq : LoginRequest :=
  { username := "bob", credentialsValid := true, canonical := "bob" }

def sixGoodLogins : List LoginEvent :=
  [⟨0, "9.9.9.9", goodDemoReq⟩, ⟨10, "9.9.9.9", goodDemoReq⟩,
   ⟨20, "9.9.9.9", goodDemoReq⟩, ⟨30, "9.9.9.9", goodDemoReq⟩,
   ⟨40, "9.9.9.9", goodDemoReq⟩, ⟨50, "9.9.9.9", goodDemoReq⟩]

/-- C9: the per-IP window counter is incremented by every POST that passes
the throttle — a successful login included — and success does not clear it
(`_clear_login_protection` only deletes the per-pair keys); consequently on
a concrete trace of six correctly-authenticated POSTs from one IP inside
one 60-second window, the first five succeed and the sixth gets HTTP 429. -/
theorem C9_window_counter_counts_successes (c : Cache) (now : Nat) (ip : String)
    (req : LoginRequest) :
    ((is_rate_limited c now ip).1 = false →
     is_locked c now ip req.username = false →
     req.credentialsValid = true →
       (login_view c now ip req).1.loggedIn = true
       ∧ (login_view c now ip req).2 (.window ip)
           = some (effectiveCount c now (.window ip) + 1, now + LOGIN_WINDOW_SECONDS))
    ∧ (runLogins (fun _ => none) sixGoodLogins).1.map (fun p => (p.2.status, p.2.loggedIn))
        = [(302, true), (302, true), (302, true), (302, true), (302, true), (429, false)] := by
  constructor
  · intro hnl hnlock hvalid
    have h1 : ¬((is_rate_limited c now ip).1 = true) := by
      rw [hnl]
      exact Bool.false_ne_true
    have h2 : ¬((req.username != "" && is_locked (is_rate_limited c now ip).2 now ip
        req.username) = true) := by
      rw [is_locked_rate_limited, hnlock, Bool.and_false]
      exact Bool.false_ne_true
    have hlow : ¬(LOGIN_MAX_ATTEMPTS_PER_IP ≤ weff (c (.window ip)) now) := by
      intro hge
      rw [is_rate_limited_eq] at hnl
      simp only at hnl
      rw [wstep_eq, if_pos hge] at hnl
      exact Bool.noConfusion hnl
    have hwin : (login_view c now ip req).2 (.window ip)
        = some (effectiveCount c now (.window ip) + 1, now + LOGIN_WINDOW_SECONDS) := by
      rw [login_view_window, is_rate_limited_snd_apply, if_pos rfl, wstep_eq,
        if_neg hlow, effectiveCount_eq_weff]
    refine ⟨?_, hwin⟩
    simp only [login_view]
    rw [if_neg h1, if_neg h2, if_pos hvalid]
  · decide

/-- Closed instance of C9 part one: a successful login from a fresh cache
leaves the per-IP window counter incremented, not cleared. -/
theorem C9_window_counter_counts_successes_witness :
    (login_view (fun _ => none) 0 "8.8.8.8" goodDemoReq).1.loggedIn = true
    ∧ (login_view (fun _ => none) 0 "8.8.8.8" goodDemoReq).2 (.window "8.8.8.8")
        = some (effectiveCount (fun _ => none) 0 (.window "8.8.8.8") + 1,
            0 + LOGIN_WINDOW_SECONDS) :=
  (C9_window_counter_counts_successes (fun _ => none) 0 "8.8.8.8" goodDemoReq).1
    (by decide) (by decide) (by decide)

/- ### Chat data model (`src/listings/models.py` lines 149-190,
`src/listings/views.py` lines 30-36, 398-445, 566-580) -/

/-- Rows of `Listing`, restricted to the fields the chat, moderation and
favorite endpoints read: primary key, optional owner, title, status string
(`draft` / `published` / `archived` / `blocked`) and the active flag. -/
structure ListingRec where
  id : Nat
  owner : Option Nat
  title : String
  status : String
  is_active : Bool
deriving DecidableEq

def STATUS_PUBLISHED : String := "published"

def STATUS_BLOCKED : String := "blocked"

/-- Rows of `ChatThread`: unique per (listing, landlord, tenant). -/
structure ChatThreadRec where
  id : Nat
  listing_id : Nat
  landlord : Nat
  tenant : Nat
  updated_at : Nat
deriving DecidableEq

/-- Rows of `ChatMessage`; `Meta.ordering = ["created_at"]`. -/
structure ChatMessageRec where
  id : Nat
  thread_id : Nat
  sender : Nat
  recipient : Nat
  text : String
  created_at : Nat
  is_read : Bool
deriving DecidableEq

/-- Embedding of `_serialize_chat_message` (views.py lines 30-36); the timestamp is kept
as the raw creation time instead of its `DD.MM.YYYY HH:MM` rendering. -/
structure ChatMessageJson where
  id : Nat
  text : String
  created_at : Nat
  is_me : Bool
deriving DecidableEq

def serialize_chat_message (m : ChatMessageRec) (currentUserId : Nat) : ChatMessageJson :=
  { id := m.id, text := m.text, created_at := m.created_at,
    is_me := m.sender == currentUserId }

/-- The `ChatMessage` default queryset order: ascending `created_at`
(`Meta.ordering`), lifted to a stable sort over the row list. -/
def orderByCreated (l : List ChatMessageRec) : List ChatMessageRec :=
  l.mergeSort (fun a b => a.created_at ≤ b.created_at)

/-- Result of `chat_messages_api`. -/
inductive ChatApiResult where
  | notFound
  | forbidden
  | ok (messages : List ChatMessageJson)
deriving DecidableEq

/-- The bulk update
`ChatMessage.objects.filter(thread, recipient=user, is_read=False, id__gt=after_id).update(is_read=True)`
as its effect on one row. -/
def markRead (threadId userId afterId : Nat) (m : ChatMessageRec) : ChatMessageRec :=
  if m.thread_id == threadId && m.recipient == userId && m.is_read == false
      && afterId < m.id
  then { m with is_read := true } else m

/-- Embedding of `chat_messages_api` (views.py lines 566-580): resolve the thread,
reject outsiders with 403, list the thread's messages with id strictly
above `after_id` in the default `created_at` order, and mark the unread
ones addressed to the caller with id above `after_id` as read. -/
def chat_messages_api (threads : List ChatThreadRec) (msgs : List ChatMessageRec)
    (userId threadId afterId : Nat) : ChatApiResult × List ChatMessageRec :=
  match threads.find? (fun t => t.id == threadId) with
  | none => (.notFound, msgs)
  | some thread =>
    if userId != thread.landlord && userId != thread.tenant then (.forbidden, msgs)
    else
      let returned := orderByCreated
        (msgs.filter (fun m => m.thread_id == thread.id && afterId < m.id))
      let payload := returned.map (fun m => serialize_chat_message m userId)
      let msgs1 := msgs.map (markRead thread.id userId afterId)
      (.ok payload, msgs1)

theorem markRead_idem (t u a : Nat) (m : ChatMessageRec) :
    markRead t u a (markRead t u a m) = markRead t u a m := by
  by_cases h : (m.thread_id == t && m.recipient == u && m.is_read == false
      && decide (a < m.id)) = true
  · have h1 : markRead t u a m = { m with is_read := true } := by
      unfold markRead
      rw [if_pos h]
    rw [h1]
    unfold markRead
    rw [if_neg]
    simp
  · have h1 : markRead t u a m = m := by
      unfold markRead
      rw [if_neg h]
    rw [h1, h1]

theorem markRead_id (t u a : Nat) (m : ChatMessageRec) :
    (markRead t u a m).id = m.id := by
  unfold markRead
  split <;> rfl

theorem markRead_thread_id (t u a : Nat) (m : ChatMessageRec) :
    (markRead t u a m).thread_id = m.thread_id := by
  unfold markRead
  split <;> rfl

theorem markRead_created_at (t u a : Nat) (m : ChatMessageRec) :
    (markRead t u a m).created_at = m.created_at := by
  unfold markRead
  split <;> rfl

theorem markRead_recipient (t u a : Nat) (m : ChatMessageRec) :
    (markRead t u a m).recipient = m.recipient := by
  unfold markRead
  split <;> rfl

theorem serialize_markRead (t u a cu : Nat) (m : ChatMessageRec) :
    serialize_chat_message (markRead t u a m) cu = serialize_chat_message m cu := by
  unfold markRead
  split <;> simp [serialize_chat_message]

/-- Unfolding of `chat_messages_api` for an authorized caller on a resolved
thread. -/
theorem chat_messages_api_eq (threads : List ChatThreadRec) (msgs : List ChatMessageRec)
    (userId threadId afterId : Nat) (thread : ChatThreadRec)
    (hfind : threads.find? (fun t => t.id == threadId) = some thread)
    (hauth : (userId != thread.landlord && userId != thread.tenant) = false) :
    chat_messages_api threads msgs userId threadId afterId
      = (.ok ((orderByCreated
            (msgs.filter (fun m => m.thread_id == thread.id && afterId < m.id))).map
              (fun m => serialize_chat_message m userId)),
         msgs.map (markRead thread.id userId afterId)) := by
  simp only [chat_messages_api, hfind]
  rw [hauth]
  simp

theorem orderByCreated_of_sorted {l : List ChatMessageRec}
    (h : l.Pairwise (fun a b => (decide (a.created_at ≤ b.created_at)) = true)) :
    orderByCreated l = l :=
  List.mergeSort_of_sorted h

/-- C2: for a caller who is the thread's landlord or tenant, polling with
`after_id` returns exactly the thread's messages with id strictly greater
than `after_id` (in ascending id order, the creation order), marks every
message it returns that is addressed to the caller as read while touching
nothing else, and an immediately repeated call with the same `after_id`
returns the same payload and leaves the message store unchanged.
The two `Pairwise` hypotheses say the store is in insertion order with
auto-increasing primary keys and non-decreasing creation times. -/
theorem C2_chat_poll_exact_and_idempotent (threads : List ChatThreadRec)
    (msgs : List ChatMessageRec) (userId threadId afterId : Nat) (thread : ChatThreadRec)
    (hfind : threads.find? (fun t => t.id == threadId) = some thread)
    (hparty : userId = thread.landlord ∨ userId = thread.tenant)
    (hid : msgs.Pairwise (fun a b => a.id < b.id))
    (hca : msgs.Pairwise (fun a b => a.created_at ≤ b.created_at)) :
    (chat_messages_api threads msgs userId threadId afterId).1
        = .ok ((msgs.filter (fun m => m.thread_id == thread.id && afterId < m.id)).map
            (fun m => serialize_chat_message m userId))
    ∧ ((msgs.filter (fun m => m.thread_id == thread.id && afterId < m.id)).map
          (fun m => m.id)).Pairwise (· < ·)
    ∧ (chat_messages_api threads msgs userId threadId afterId).2
        = msgs.map (markRead thread.id userId afterId)
    ∧ ((chat_messages_api threads msgs userId threadId afterId).2.filter
          (fun m => m.thread_id == thread.id && m.recipient == userId && afterId < m.id)).all
        (fun m => m.is_read) = true
    ∧ chat_messages_api threads
        ((chat_messages_api threads msgs userId threadId afterId).2) userId threadId afterId
        = ((chat_messages_api threads msgs userId threadId afterId).1,
           (chat_messages_api threads msgs userId threadId afterId).2) := by
  have hauth : (userId != thread.landlord && userId != thread.tenant) = false := by
    rcases hparty with h | h <;> simp [h]
  have hapi := chat_messages_api_eq threads msgs userId threadId afterId thread hfind hauth
  have hsort1 : orderByCreated
      (msgs.filter (fun m => m.thread_id == thread.id && afterId < m.id))
      = msgs.filter (fun m => m.thread_id == thread.id && afterId < m.id) :=
    orderByCreated_of_sorted ((hca.filter _).imp (fun hab => decide_eq_true hab))
  have hr1 : (chat_messages_api threads msgs userId threadId afterId).1
      = .ok ((msgs.filter (fun m => m.thread_id == thread.id && afterId < m.id)).map
          (fun m => serialize_chat_message m userId)) := by
    rw [hapi, hsort1]
  have hs1 : (chat_messages_api threads msgs userId threadId afterId).2
      = msgs.map (markRead thread.id userId afterId) := by
    rw [hapi]
  refine ⟨hr1, ?_, hs1, ?_, ?_⟩
  · exact List.pairwise_map.mpr (hid.filter _)
  · -- every stored message of the thread addressed to the caller with id
    -- above after_id is read after the call
    rw [hs1, List.all_eq_true]
    intro m' hm'
    rw [List.mem_filter] at hm'
    obtain ⟨hmem, hq⟩ := hm'
    rw [List.mem_map] at hmem
    obtain ⟨m, hm, rfl⟩ := hmem
    rw [markRead_thread_id, markRead_recipient, markRead_id, Bool.and_eq_true,
      Bool.and_eq_true] at hq
    obtain ⟨⟨h1, h2⟩, h3⟩ := hq
    show (markRead thread.id userId afterId m).is_read = true
    unfold markRead
    by_cases hr : m.is_read = true
    · rw [if_neg]
      · exact hr
      · rw [hr]
        simp
    · have hr' : (m.is_read == false) = true := by
        revert hr
        cases m.is_read <;> simp
      have hc : (m.thread_id == thread.id && m.recipient == userId && m.is_read == false
          && decide (afterId < m.id)) = true := by
        simp [h1, h2, h3, hr']
      rw [if_pos hc]
  · -- the immediately repeated call
    have hapi2 := chat_messages_api_eq threads (msgs.map (markRead thread.id userId afterId))
      userId threadId afterId thread hfind hauth
    have hfilter2 : (msgs.map (markRead thread.id userId afterId)).filter
        (fun m => m.thread_id == thread.id && afterId < m.id)
        = (msgs.filter (fun m => m.thread_id == thread.id && afterId < m.id)).map
            (markRead thread.id userId afterId) := by
      rw [List.filter_map]
      congr 1
      apply List.filter_congr
      intro m _
      show ((markRead thread.id userId afterId m).thread_id == thread.id
          && decide (afterId < (markRead thread.id userId afterId m).id))
        = (m.thread_id == thread.id && decide (afterId < m.id))
      rw [markRead_thread_id, markRead_id]
    have hsortca2 : ((msgs.filter (fun m => m.thread_id == thread.id && afterId < m.id)).map
        (markRead thread.id userId afterId)).Pairwise
        (fun a b => (decide (a.created_at ≤ b.created_at)) = true) := by
      rw [List.pairwise_map]
      refine (hca.filter _).imp ?_
      intro a b hab
      rw [markRead_created_at, markRead_created_at]
      exact decide_eq_true hab
    have hpayload2 : ((msgs.filter (fun m => m.thread_id == thread.id && afterId < m.id)).map
          (markRead thread.id userId afterId)).map (fun m => serialize_chat_message m userId)
        = (msgs.filter (fun m => m.thread_id == thread.id && afterId < m.id)).map
            (fun m => serialize_chat_message m userId) := by
      rw [List.map_map]
      apply List.map_congr_left
      intro m _
      exact serialize_markRead _ _ _ _ m
    have hstate2 : (msgs.map (markRead thread.id userId afterId)).map
          (markRead thread.id userId afterId)
        = msgs.map (markRead thread.id userId afterId) := by
      rw [List.map_map]
      apply List.map_congr_left
      intro m _
      exact markRead_idem _ _ _ m
    rw [hs1, hr1, hapi2, hfilter2, orderByCreated_of_sorted hsortca2, hpayload2, hstate2]

def demoThread : ChatThreadRec :=
  { id := 5, listing_id := 1, landlord := 1, tenant := 2, updated_at := 0 }

def demoMsgs : List ChatMessageRec :=
  [{ id := 10, thread_id := 5, sender := 2, recipient := 1, text := "hi",
     created_at := 100, is_read := false },
   { id := 11, thread_id := 5, sender := 2, recipient := 1, text := "there",
     created_at := 101, is_read := false },
   { id := 12, thread_id := 5, sender := 1, recipient := 2, text := "yo",
     created_at := 102, is_read := false }]

/-- Closed instance of C2 on the spec scenario: thread 5 holding messages
10, 11, 12, polled with after_id 0 by the landlord. -/
theorem C2_chat_poll_exact_and_idempotent_witness :
    (chat_messages_api [demoThread] demoMsgs 1 5 0).1
        = .ok ((demoMsgs.filter (fun m => m.thread_id == demoThread.id && 0 < m.id)).map
            (fun m => serialize_chat_message m 1))
    ∧ ((demoMsgs.filter (fun m => m.thread_id == demoThread.id && 0 < m.id)).map
          (fun m => m.id)).Pairwise (· < ·)
    ∧ (chat_messages_api [demoThread] demoMsgs 1 5 0).2
        = demoMsgs.map (markRead demoThread.id 1 0)
    ∧ ((chat_messages_api [demoThread] demoMsgs 1 5 0).2.filter
          (fun m => m.thread_id == demoThread.id && m.recipient == 1 && 0 < m.id)).all
        (fun m => m.is_read) = true
    ∧ chat_messages_api [demoThread] ((chat_messages_api [demoThread] demoMsgs 1 5 0).2) 1 5 0
        = ((chat_messages_api [demoThread] demoMsgs 1 5 0).1,
           (chat_messages_api [demoThread] demoMsgs 1 5 0).2) :=
  C2_chat_poll_exact_and_idempotent [demoThread] demoMsgs 1 5 0 demoThread
    (by decide) (by decide) (by decide) (by decide)

/- ### Sending a message on a listing (`src/listings/views.py` lines 398-445) -/

/-- Auto-increment primary key for a new `ChatThread` row. -/
def nextThreadId (threads : List ChatThreadRec) : Nat :=
  threads.foldr (fun t acc => max acc (t.id + 1)) 1

/-- Auto-increment primary key for a new `ChatMessage` row. -/
def nextMessageId (msgs : List ChatMessageRec) : Nat :=
  msgs.foldr (fun m acc => max acc (m.id + 1)) 1

/-- Embedding of `ChatThread.objects.get_or_create(listing, landlord, tenant)`:
reuse the unique row for the triple, or insert a fresh one. -/
def getOrCreateThread (threads : List ChatThreadRec) (listingId landlord tenant now : Nat) :
    ChatThreadRec × List ChatThreadRec :=
  match threads.find? (fun t =>
      t.listing_id == listingId && t.landlord == landlord && t.tenant == tenant) with
  | some t => (t, threads)
  | none =>
    let t : ChatThreadRec := { id := nextThreadId threads, listing_id := listingId,
                               landlord := landlord, tenant := tenant, updated_at := now }
    (t, threads ++ [t])

/-- Observable outcome of `send_message`.  JSON bodies are kept literally
(`ok`, `error`, ids); the two non-JSON redirect targets (listing detail for
a refusal, `next`-or-detail with the `open_message=1` flag otherwise) are
collapsed into two constructors. -/
inductive SendResponse where
  | notFound
  | jsonError (status : Nat) (error : String)
  | jsonOk (thread_id : Nat) (message : ChatMessageJson)
  | redirectDetail
  | redirectBack
deriving DecidableEq

/-- The chat-side database state touched by `send_message`. -/
structure ChatState where
  listings : List ListingRec
  threads : List ChatThreadRec
  msgs : List ChatMessageRec
deriving DecidableEq

/-- Embedding of `send_message` (views.py lines 398-445), POST branch.  Mirrors the
code's order: resolve the active listing (404 otherwise), strip the text,
refuse ownerless listings and self-chat, get-or-create the thread, then
either persist the message (read=false) and bump the thread's `updated_at`
to now, or — for empty text — report `empty_message` with the thread kept. -/
def send_message (st : ChatState) (now : Nat) (userId pk : Nat) (text : String)
    (isAjax : Bool) : SendResponse × ChatState :=
  match st.listings.find? (fun l => l.id == pk) with
  | none => (.notFound, st)
  | some listing =>
    if !listing.is_active then (.notFound, st)
    else
      let text := pyStrip text
      match listing.owner with
      | none => (if isAjax then .jsonError 403 "forbidden" else .redirectDetail, st)
      | some owner =>
        if owner == userId then
          (if isAjax then .jsonError 403 "forbidden" else .redirectDetail, st)
        else
          let tp := getOrCreateThread st.threads listing.id owner userId now
          let thread := tp.1
          let threads1 := tp.2
          if text != "" then
            let msg : ChatMessageRec :=
              ⟨nextMessageId st.msgs, thread.id, userId, owner, text, now, false⟩
            let threads2 := threads1.map (fun t =>
              if t.id == thread.id then { t with updated_at := now } else t)
            (if isAjax then .jsonOk thread.id (serialize_chat_message msg userId)
             else .redirectBack,
             { st with threads := threads2, msgs := st.msgs ++ [msg] })
          else
            (if isAjax then .jsonError 400 "empty_message" else .redirectBack,
             { st with threads := threads1 })

/-- C7: when the listing is ownerless or the sender is its owner, the
AJAX message endpoint answers `{ok:false, error:"forbidden"}` with
HTTP 403 and the state — threads and messages included — is untouched. -/
theorem C7_send_forbidden_without_side_effects (st : ChatState) (now userId pk : Nat)
    (text : String) (listing : ListingRec)
    (hfind : st.listings.find? (fun l => l.id == pk) = some listing)
    (hact : listing.is_active = true)
    (howner : listing.owner = none ∨ listing.owner = some userId) :
    send_message st now userId pk text true = (.jsonError 403 "forbidden", st) := by
  rcases howner with h | h <;> simp [send_message, hfind, hact, h]

/-- Closed instance of C7: owner sends to their own active listing. -/
theorem C7_send_forbidden_without_side_effects_witness :
    send_message
        ⟨[{ id := 3, owner := some 4, title := "flat", status := "published",
            is_active := true }], [], []⟩ 50 4 3 "hello" true
      = (.jsonError 403 "forbidden",
         ⟨[{ id := 3, owner := some 4, title := "flat", status := "published",
             is_active := true }], [], []⟩) :=
  C7_send_forbidden_without_side_effects _ 50 4 3 "hello"
    { id := 3, owner := some 4, title := "flat", status := "published", is_active := true }
    (by decide) (by decide) (Or.inr (by decide))

theorem getOrCreateThread_mem (threads : List ChatThreadRec) (lid la te now : Nat) :
    ((getOrCreateThread threads lid la te now).2.any
      (fun t => t.listing_id == lid && t.landlord == la && t.tenant == te)) = true := by
  unfold getOrCreateThread
  cases hf : threads.find? (fun t =>
      t.listing_id == lid && t.landlord == la && t.tenant == te) with
  | some t =>
    simp only
    rw [List.any_eq_true]
    refine ⟨t, List.mem_of_find?_eq_some hf, ?_⟩
    simpa using List.find?_some hf
  | none =>
    simp only
    rw [List.any_eq_true]
    refine ⟨_, List.mem_append_right _ (List.mem_singleton.mpr rfl), ?_⟩
    simp

theorem getOrCreateThread_existing (threads : List ChatThreadRec) (lid la te now : Nat)
    (h : (threads.any (fun t => t.listing_id == lid && t.landlord == la && t.tenant == te))
      = true) :
    (getOrCreateThread threads lid la te now).2 = threads := by
  obtain ⟨t, ht, hp⟩ := List.any_eq_true.mp h
  have hsome : ((threads.find? (fun t =>
      t.listing_id == lid && t.landlord == la && t.tenant == te)).isSome) = true :=
    List.find?_isSome.mpr ⟨t, ht, hp⟩
  unfold getOrCreateThread
  cases hf : threads.find? (fun t =>
      t.listing_id == lid && t.landlord == la && t.tenant == te) with
  | some t' => rfl
  | none =>
    rw [hf] at hsome
    exact absurd hsome (by simp)

theorem getOrCreateThread_updated (threads : List ChatThreadRec) (lid la te now : Nat) :
    (((getOrCreateThread threads lid la te now).2.map
        (fun t => if t.id == ((getOrCreateThread threads lid la te now).1).id
          then { t with updated_at := now } else t)).any
      (fun t => t.listing_id == lid && t.landlord == la && t.tenant == te
        && t.updated_at == now)) = true := by
  unfold getOrCreateThread
  cases hf : threads.find? (fun t =>
      t.listing_id == lid && t.landlord == la && t.tenant == te) with
  | some t =>
    simp only
    rw [List.any_eq_true]
    refine ⟨{ t with updated_at := now }, ?_, ?_⟩
    · rw [List.mem_map]
      exact ⟨t, List.mem_of_find?_eq_some hf, by rw [if_pos (by simp)]⟩
    · have hp := List.find?_some hf
      rw [Bool.and_eq_true, Bool.and_eq_true] at hp
      simp [hp.1.1, hp.1.2, hp.2]
  | none =>
    simp only
    rw [List.any_eq_true]
    refine ⟨⟨nextThreadId threads, lid, la, te, now⟩, ?_, ?_⟩
    · rw [List.mem_map]
      refine ⟨⟨nextThreadId threads, lid, la, te, now⟩,
        List.mem_append_right _ (List.mem_singleton.mpr rfl), ?_⟩
      rw [if_pos (by simp)]
    · simp

/-- C8: for an authorized sender, text that is empty after trimming is
rejected with `{ok:false, error:"empty_message"}` / HTTP 400 and no message
row appears, yet the (listing, owner, sender) thread exists afterwards —
created by the get-or-create that runs before the text check — while an
already existing thread list is left unchanged; non-empty text appends
exactly one message with read=false, the trimmed text and the current
timestamp, and the thread's `updated_at` is bumped to now. -/
theorem C8_send_empty_vs_nonempty (st : ChatState) (now userId pk : Nat) (text : String)
    (listing : ListingRec) (owner : Nat)
    (hfind : st.listings.find? (fun l => l.id == pk) = some listing)
    (hact : listing.is_active = true)
    (howner : listing.owner = some owner)
    (hne : (owner == userId) = false) :
    (pyStrip text = "" →
       (send_message st now userId pk text true).1 = .jsonError 400 "empty_message"
       ∧ (send_message st now userId pk text true).2.msgs = st.msgs
       ∧ ((send_message st now userId pk text true).2.threads.any
           (fun t => t.listing_id == listing.id && t.landlord == owner && t.tenant == userId))
           = true
       ∧ ((st.threads.any (fun t => t.listing_id == listing.id && t.landlord == owner
             && t.tenant == userId)) = true →
           (send_message st now userId pk text true).2.threads = st.threads))
    ∧ (pyStrip text ≠ "" →
       (send_message st now userId pk text true).2.msgs.map
           (fun m => (m.sender, m.recipient, m.text, m.created_at, m.is_read))
         = st.msgs.map (fun m => (m.sender, m.recipient, m.text, m.created_at, m.is_read))
             ++ [(userId, owner, pyStrip text, now, false)]
       ∧ ((send_message st now userId pk text true).2.threads.any
           (fun t => t.listing_id == listing.id && t.landlord == owner && t.tenant == userId
             && t.updated_at == now)) = true) := by
  constructor
  · intro htext
    have hb : (pyStrip text != "") = false := by
      rw [htext]
      rfl
    have heq : send_message st now userId pk text true
        = (.jsonError 400 "empty_message",
           { st with threads := (getOrCreateThread st.threads listing.id owner userId now).2 }) := by
      simp [send_message, hfind, hact, howner, hne, hb]
    refine ⟨?_, ?_, ?_, ?_⟩
    · rw [heq]
    · rw [heq]
    · rw [heq]
      exact getOrCreateThread_mem st.threads listing.id owner userId now
    · intro hany
      rw [heq]
      exact getOrCreateThread_existing st.threads listing.id owner userId now hany
  · intro htext
    have hb : (pyStrip text != "") = true := bne_iff_ne.mpr htext
    have heq : send_message st now userId pk text true
        = (.jsonOk ((getOrCreateThread st.threads listing.id owner userId now).1).id
             (serialize_chat_message
               ⟨nextMessageId st.msgs,
                ((getOrCreateThread st.threads listing.id owner userId now).1).id,
                userId, owner, pyStrip text, now, false⟩ userId),
           { st with
             threads := (getOrCreateThread st.threads listing.id owner userId now).2.map
               (fun t =>
                 if t.id == ((getOrCreateThread st.threads listing.id owner userId now).1).id
                 then { t with updated_at := now } else t),
             msgs := st.msgs ++ [⟨nextMessageId st.msgs,
               ((getOrCreateThread st.threads listing.id owner userId now).1).id, userId,
               owner, pyStrip text, now, false⟩] }) := by
      simp [send_message, hfind, hact, howner, hne, hb]
    constructor
    · rw [heq]
      simp
    · rw [heq]
      exact getOrCreateThread_updated st.threads listing.id owner userId now

def c8DemoState : ChatState :=
  ⟨[{ id := 3, owner := some 4, title := "flat", status := "published",
      is_active := true }], [], []⟩

/-- Closed instance of C8's empty-text half: whitespace-only text on an
active listing with a foreign owner. -/
theorem C8_send_empty_vs_nonempty_witness :
    (send_message c8DemoState 50 9 3 "   " true).1 = .jsonError 400 "empty_message"
    ∧ (send_message c8DemoState 50 9 3 "   " true).2.msgs = c8DemoState.msgs
    ∧ ((send_message c8DemoState 50 9 3 "   " true).2.threads.any
        (fun t => t.listing_id == 3 && t.landlord == 4 && t.tenant == 9)) = true
    ∧ ((c8DemoState.threads.any
        (fun t => t.listing_id == 3 && t.landlord == 4 && t.tenant == 9)) = true →
        (send_message c8DemoState 50 9 3 "   " true).2.threads = c8DemoState.threads) :=
  (C8_send_empty_vs_nonempty c8DemoState 50 9 3 "   "
      { id := 3, owner := some 4, title := "flat", status := "published", is_active := true } 4
      (by decide) (by decide) (by decide) (by decide)).1 (by decide)

/- ### Report moderation (`src/listings/models.py` lines 193-249,
`src/listings/admin.py` lines 25-39, 119-196) -/

def MODERATION_PENDING : String := "pending"

def MODERATION_IN_REVIEW : String := "in_review"

def MODERATION_APPROVED : String := "approved"

def MODERATION_REJECTED : String := "rejected"

def TYPE_REPORT_RESULT : String := "report_result"

/-- Rows of `ListingReport` (fields the admin workflow touches). -/
structure ReportRec where
  id : Nat
  listing_id : Nat
  reporter : Nat
  moderation_status : String
  moderation_reason : String
  reviewed_at : Option Nat
  reviewed_by : Option Nat
deriving DecidableEq

/-- Rows of `Notification` created by the moderation workflow. -/
structure NotificationRec where
  recipient : Option Nat
  related_report : Option Nat
  notification_type : String
  title : String
  message : String
deriving DecidableEq

/-- The database state the moderation admin touches.  `listing_saves` logs
the ids passed to `listing.save(update_fields=["status"])`, so that "the
listing is not written again" is observable. -/
structure ModState where
  listings : List ListingRec
  reports : List ReportRec
  notifications : List NotificationRec
  listing_saves : List Nat
deriving DecidableEq

/-- Effect of `super().save_model(...)` on the report table: update the row in place if the
primary key exists, insert it otherwise. -/
def saveReport (reports : List ReportRec) (obj : ReportRec) : List ReportRec :=
  if reports.any (fun r => r.id == obj.id) then
    reports.map (fun r => if r.id == obj.id then obj else r)
  else reports ++ [obj]

/-- Resolution of `obj.listing` through the foreign key; the admin only handles
reports whose listing row exists. -/
def findListing (st : ModState) (lid : Nat) : Option ListingRec :=
  st.listings.find? (fun l => l.id == lid)

def listingTitle (st : ModState) (lid : Nat) : String :=
  ((findListing st lid).map (fun l => l.title)).getD ""

/-- Computation of `previous_status` as done in `save_model` (admin.py lines 120-126):
the stored status when editing an existing row, `None` on a fresh row. -/
def reportPrevStatus (st : ModState) (obj : ReportRec) (change : Bool) : Option String :=
  if change then ((st.reports.find? (fun r => r.id == obj.id)).map
    (fun r => r.moderation_status))
  else none

def inReviewMessage (title : String) : String :=
  "Вашу скаргу щодо оголошення \x27" ++ title ++ "\x27 прийнято в роботу."

def rejectedMessage (title reason : String) : String :=
  "Скаргу щодо оголошення \x27" ++ title ++ "\x27 відхилено.\nПричина: " ++ reason

def approvedReporterMessage (title : String) : String :=
  "Скаргу щодо оголошення \x27" ++ title ++ "\x27 підтверджено. Оголошення заблоковано."

def approvedOwnerMessage (title reason : String) : String :=
  "Ваше оголошення \x27" ++ title ++ "\x27 заблоковано за результатами розгляду скарги."
    ++ (if reason != "" then "\nПричина: " ++ reason else "")

/-- Review stamping (admin.py lines 128-133): on every save a non-pending
status gets the current admin and time, a pending status clears both. -/
def stampReview (obj : ReportRec) (now adminUser : Nat) : ReportRec :=
  if obj.moderation_status != MODERATION_PENDING then
    { obj with reviewed_at := some now, reviewed_by := some adminUser }
  else
    { obj with reviewed_at := none, reviewed_by := none }

/-- Embedding of `ListingReportAdmin.save_model` (admin.py lines 119-196).  Stamps or
clears the review fields, persists the report, and — only when the status
actually changed — fires the per-status side effects: in_review and
rejected notify the reporter; approved blocks the listing if it is not
already blocked, notifies the reporter and, when the listing has an owner,
notifies the owner with the trimmed moderation reason when one is given. -/
def report_save_model (st : ModState) (now adminUser : Nat) (obj : ReportRec)
    (change : Bool) : ModState :=
  let previous := reportPrevStatus st obj change
  let obj1 := stampReview obj now adminUser
  let st1 := { st with reports := saveReport st.reports obj1 }
  if previous == some obj1.moderation_status then st1
  else if obj1.moderation_status == MODERATION_IN_REVIEW then
    { st1 with notifications := st1.notifications ++
        [⟨some obj1.reporter, some obj1.id, TYPE_REPORT_RESULT,
          "Скарга на розгляді", inReviewMessage (listingTitle st1 obj1.listing_id)⟩] }
  else if obj1.moderation_status == MODERATION_REJECTED then
    { st1 with notifications := st1.notifications ++
        [⟨some obj1.reporter, some obj1.id, TYPE_REPORT_RESULT,
          "Скаргу відхилено",
          rejectedMessage (listingTitle st1 obj1.listing_id)
            (pyStrip obj1.moderation_reason)⟩] }
  else if obj1.moderation_status == MODERATION_APPROVED then
    match findListing st1 obj1.listing_id with
    | none => st1
    | some listing =>
      let blocked :=
        if listing.status != STATUS_BLOCKED then
          { st1 with
            listings := st1.listings.map (fun l =>
              if l.id == listing.id then { l with status := STATUS_BLOCKED } else l),
            listing_saves := st1.listing_saves ++ [listing.id] }
        else st1
      let withReporter := { blocked with notifications := blocked.notifications ++
        [⟨some obj1.reporter, some obj1.id, TYPE_REPORT_RESULT,
          "Скаргу підтверджено", approvedReporterMessage listing.title⟩] }
      match listing.owner with
      | some ownerId =>
        { withReporter with notifications := withReporter.notifications ++
            [⟨some ownerId, some obj1.id, TYPE_REPORT_RESULT,
              "Оголошення заблоковано",
              approvedOwnerMessage listing.title (pyStrip obj1.moderation_reason)⟩] }
      | none => withReporter
  else st1

/-- Embedding of `ListingReportAdminForm.clean` (admin.py lines 30-39) flags a rejected
status whose trimmed moderation reason is empty as a validation error. -/
def reportFormHasError (status reason : String) : Bool :=
  status == MODERATION_REJECTED && pyStrip reason == ""

/-- The admin change flow: the framework calls `save_model` only when the
form validates; an invalid form re-renders and persists nothing.  Returns
whether a save happened next to the resulting state. -/
def admin_change_report (st : ModState) (now adminUser : Nat) (obj : ReportRec)
    (change : Bool) : Bool × ModState :=
  if reportFormHasError obj.moderation_status obj.moderation_reason then (false, st)
  else (true, report_save_model st now adminUser obj change)

theorem stampReview_id (obj : ReportRec) (now adminUser : Nat) :
    (stampReview obj now adminUser).id = obj.id := by
  unfold stampReview
  split <;> rfl

theorem stampReview_status (obj : ReportRec) (now adminUser : Nat) :
    (stampReview obj now adminUser).moderation_status = obj.moderation_status := by
  unfold stampReview
  split <;> rfl

/-- No side-effect branch of `save_model` touches the report table again:
the stored rows are exactly the upsert of the stamped report. -/
theorem report_save_model_reports (st : ModState) (now adminUser : Nat) (obj : ReportRec)
    (change : Bool) :
    (report_save_model st now adminUser obj change).reports
      = saveReport st.reports (stampReview obj now adminUser) := by
  simp only [report_save_model]
  repeat' split
  all_goals rfl

theorem find?_saveReport (l : List ReportRec) (obj : ReportRec) (i : Nat) (hi : obj.id = i) :
    (saveReport l obj).find? (fun r => r.id == i) = some obj := by
  subst hi
  unfold saveReport
  split
  · rename_i hany
    induction l with
    | nil => cases hany
    | cons r rs ih =>
      rw [List.map_cons, List.find?_cons]
      by_cases h : (r.id == obj.id) = true
      · rw [if_pos h]
        simp
      · rw [if_neg h]
        simp only [h]
        rw [List.any_cons, Bool.or_eq_true] at hany
        rcases hany with h' | h'
        · exact absurd h' h
        · exact ih h'
  · rename_i hany
    rw [List.find?_append]
    have h1 : l.find? (fun r => r.id == obj.id) = none := by
      rw [List.find?_eq_none]
      intro r hr hp
      exact hany (List.any_eq_true.mpr ⟨r, hr, hp⟩)
    rw [h1]
    simp

def c1Listing : ListingRec :=
  { id := 1, owner := some 3, title := "T", status := "blocked", is_active := true }

def c1Report : ReportRec :=
  { id := 1, listing_id := 1, reporter := 2, moderation_status := "approved",
    moderation_reason := "r", reviewed_at := some 100, reviewed_by := some 7 }

def c1State : ModState := ⟨[c1Listing], [c1Report], [], []⟩

/-- C1 as stated is false on the code: report 1 sits at status `approved`,
reviewed at time 100 by admin 7; re-saving it unchanged (still `approved`)
at time 200 by admin 9 re-stamps the review fields to (200, 9), although
the status did not change away from pending on this save. -/
theorem C1_counterexample_restamp :
    c1Report.reviewed_at = some 100 ∧ c1Report.reviewed_by = some 7
    ∧ ((report_save_model c1State 200 9 c1Report true).reports.find?
        (fun r => r.id == 1)).map (fun r => (r.reviewed_at, r.reviewed_by))
      = some (some 200, some 9) := by decide

/-- C1 (amended): on every admin save of a report the reviewer identity and
review timestamp are set — to the saving admin and the current time, hence
re-stamped even by a save that leaves a non-pending status unchanged — iff
the saved status is not `pending`; a save with status `pending` clears both
fields and emits no notification. -/
theorem C1_review_stamp_iff_nonpending (st : ModState) (now adminUser : Nat)
    (obj : ReportRec) (change : Bool) :
    ((report_save_model st now adminUser obj change).reports.find?
        (fun r => r.id == obj.id)).map (fun r => (r.reviewed_at, r.reviewed_by))
      = some (if obj.moderation_status != MODERATION_PENDING
              then (some now, some adminUser) else (none, none))
    ∧ (obj.moderation_status = MODERATION_PENDING →
        (report_save_model st now adminUser obj change).notifications
          = st.notifications) := by
  constructor
  · rw [report_save_model_reports,
      find?_saveReport _ _ _ (stampReview_id obj now adminUser)]
    unfold stampReview
    split <;> rfl
  · intro hpend
    have hstat : ∀ s : String, s ≠ MODERATION_PENDING →
        ((stampReview obj now adminUser).moderation_status == s) = false := by
      intro s hs
      rw [stampReview_status, hpend]
      cases hbe : (MODERATION_PENDING == s)
      · rfl
      · exact absurd (eq_of_beq hbe).symm hs
    simp only [report_save_model]
    split
    · rfl
    · rw [if_neg (by rw [hstat MODERATION_IN_REVIEW (by decide)]; exact Bool.false_ne_true),
        if_neg (by rw [hstat MODERATION_REJECTED (by decide)]; exact Bool.false_ne_true),
        if_neg (by rw [hstat MODERATION_APPROVED (by decide)]; exact Bool.false_ne_true)]

def c1PendReport : ReportRec :=
  { id := 1, listing_id := 1, reporter := 2, moderation_status := "pending",
    moderation_reason := "", reviewed_at := some 100, reviewed_by := some 7 }

/-- Closed instance of the amended C1: reverting report 1 to `pending`
clears both review fields and emits no notification. -/
theorem C1_review_stamp_iff_nonpending_witness :
    ((report_save_model c1State 200 9 c1PendReport true).reports.find?
        (fun r => r.id == c1PendReport.id)).map (fun r => (r.reviewed_at, r.reviewed_by))
      = some (if c1PendReport.moderation_status != MODERATION_PENDING
              then (some 200, some 9) else (none, none))
    ∧ (report_save_model c1State 200 9 c1PendReport true).notifications
        = c1State.notifications :=
  ⟨(C1_review_stamp_iff_nonpending c1State 200 9 c1PendReport true).1,
   (C1_review_stamp_iff_nonpending c1State 200 9 c1PendReport true).2 (by decide)⟩

theorem stampReview_listing_id (obj : ReportRec) (now adminUser : Nat) :
    (stampReview obj now adminUser).listing_id = obj.listing_id := by
  unfold stampReview
  split <;> rfl

theorem stampReview_reporter (obj : ReportRec) (now adminUser : Nat) :
    (stampReview obj now adminUser).reporter = obj.reporter := by
  unfold stampReview
  split <;> rfl

theorem stampReview_reason (obj : ReportRec) (now adminUser : Nat) :
    (stampReview obj now adminUser).moderation_reason = obj.moderation_reason := by
  unfold stampReview
  split <;> rfl

/-- C5: saving a report as `rejected` with a whitespace-only moderation
reason fails form validation and persists nothing; a genuine transition to
`rejected` with a non-empty trimmed reason appends exactly one
notification, addressed to the reporter, whose message ends with (hence
contains) that trimmed reason. -/
theorem C5_reject_requires_reason (st : ModState) (now adminUser : Nat) (obj : ReportRec)
    (change : Bool) :
    (obj.moderation_status = MODERATION_REJECTED → pyStrip obj.moderation_reason = "" →
       admin_change_report st now adminUser obj change = (false, st))
    ∧ (obj.moderation_status = MODERATION_REJECTED →
       reportPrevStatus st obj change ≠ some MODERATION_REJECTED →
         (report_save_model st now adminUser obj change).notifications
           = st.notifications ++
             [⟨some obj.reporter, some obj.id, TYPE_REPORT_RESULT, "Скаргу відхилено",
               rejectedMessage (listingTitle st obj.listing_id)
                 (pyStrip obj.moderation_reason)⟩])
    ∧ (pyStrip obj.moderation_reason).data <:+
        (rejectedMessage (listingTitle st obj.listing_id)
          (pyStrip obj.moderation_reason)).data := by
  refine ⟨?_, ?_, ?_⟩
  · intro hstat hres
    simp [admin_change_report, reportFormHasError, hstat, hres]
  · intro hstat hprev
    have hprevb : (reportPrevStatus st obj change
        == some (stampReview obj now adminUser).moderation_status) = false := by
      rw [stampReview_status, hstat]
      exact beq_eq_false_iff_ne.mpr hprev
    have h1 : ((stampReview obj now adminUser).moderation_status
        == MODERATION_IN_REVIEW) = false := by
      rw [stampReview_status, hstat]
      decide
    have h2 : ((stampReview obj now adminUser).moderation_status
        == MODERATION_REJECTED) = true := by
      rw [stampReview_status, hstat]
      decide
    simp only [report_save_model]
    rw [if_neg (by rw [hprevb]; exact Bool.false_ne_true),
      if_neg (by rw [h1]; exact Bool.false_ne_true), if_pos h2]
    simp [listingTitle, findListing, stampReview_listing_id, stampReview_reporter,
      stampReview_reason, stampReview_id]
  · exact ⟨(("Скаргу щодо оголошення \x27" ++ listingTitle st obj.listing_id)
      ++ "\x27 відхилено.\nПричина: ").data, by rw [← String.data_append]; rfl⟩

def c5Report : ReportRec :=
  { id := 1, listing_id := 1, reporter := 2, moderation_status := "rejected",
    moderation_reason := " spam ", reviewed_at := none, reviewed_by := none }

/-- Closed instance of C5: a genuine transition to `rejected` with reason
" spam " produces exactly the one reporter notification carrying the
trimmed reason. -/
theorem C5_reject_requires_reason_witness :
    (report_save_model c1State 200 9 c5Report true).notifications
      = c1State.notifications ++
        [⟨some 2, some 1, TYPE_REPORT_RESULT, "Скаргу відхилено",
          rejectedMessage (listingTitle c1State 1) (pyStrip " spam ")⟩] :=
  (C5_reject_requires_reason c1State 200 9 c5Report true).2.1 (by decide) (by decide)

theorem find?_update_by_id (l : List ListingRec) (i : Nat) (f : ListingRec → ListingRec)
    (hf : ∀ y, y.id = i → (f y).id = i) :
    (l.map (fun y => if y.id == i then f y else y)).find? (fun y => y.id == i)
      = (l.find? (fun y => y.id == i)).map f := by
  induction l with
  | nil => rfl
  | cons y ys ih =>
    rw [List.map_cons, List.find?_cons, List.find?_cons]
    by_cases h : (y.id == i) = true
    · rw [if_pos h]
      have hfy : ((f y).id == i) = true := beq_iff_eq.mpr (hf y (beq_iff_eq.mp h))
      simp [h, hfy]
    · rw [if_neg h]
      simp only [h]
      exact ih

/-- C6: a genuine transition to `approved` forces the reported listing to
`blocked` — writing it only when it is not blocked already — notifies the
reporter, and, when the listing has an owner, also notifies the owner with
a message that carries the trimmed moderation reason whenever one was
given. -/
theorem C6_approve_blocks_and_notifies (st : ModState) (now adminUser : Nat)
    (obj : ReportRec) (change : Bool) (L : ListingRec) (ownerId : Nat)
    (hfind : findListing st obj.listing_id = some L)
    (hprev : reportPrevStatus st obj change ≠ some MODERATION_APPROVED)
    (hstat : obj.moderation_status = MODERATION_APPROVED) :
    ((findListing (report_save_model st now adminUser obj change) obj.listing_id).map
        (fun l => l.status)) = some STATUS_BLOCKED
    ∧ (L.status = STATUS_BLOCKED →
        (report_save_model st now adminUser obj change).listings = st.listings
        ∧ (report_save_model st now adminUser obj change).listing_saves = st.listing_saves)
    ∧ (L.status ≠ STATUS_BLOCKED →
        (report_save_model st now adminUser obj change).listing_saves
          = st.listing_saves ++ [L.id])
    ∧ (L.owner = none →
        (report_save_model st now adminUser obj change).notifications
          = st.notifications ++
            [⟨some obj.reporter, some obj.id, TYPE_REPORT_RESULT, "Скаргу підтверджено",
              approvedReporterMessage L.title⟩])
    ∧ (L.owner = some ownerId →
        (report_save_model st now adminUser obj change).notifications
          = st.notifications ++
            [⟨some obj.reporter, some obj.id, TYPE_REPORT_RESULT, "Скаргу підтверджено",
              approvedReporterMessage L.title⟩,
             ⟨some ownerId, some obj.id, TYPE_REPORT_RESULT, "Оголошення заблоковано",
              approvedOwnerMessage L.title (pyStrip obj.moderation_reason)⟩])
    ∧ (pyStrip obj.moderation_reason ≠ "" →
        (pyStrip obj.moderation_reason).data <:+
          (approvedOwnerMessage L.title (pyStrip obj.moderation_reason)).data) := by
  have hb1 : (reportPrevStatus st obj change
      == some (stampReview obj now adminUser).moderation_status) = false := by
    rw [stampReview_status, hstat]
    exact beq_eq_false_iff_ne.mpr hprev
  have hb2 : ((stampReview obj now adminUser).moderation_status
      == MODERATION_IN_REVIEW) = false := by
    rw [stampReview_status, hstat]
    decide
  have hb3 : ((stampReview obj now adminUser).moderation_status
      == MODERATION_REJECTED) = false := by
    rw [stampReview_status, hstat]
    decide
  have hb4 : ((stampReview obj now adminUser).moderation_status
      == MODERATION_APPROVED) = true := by
    rw [stampReview_status, hstat]
    decide
  have hfind1 : findListing
      { st with reports := saveReport st.reports (stampReview obj now adminUser) }
      (stampReview obj now adminUser).listing_id = some L := by
    show st.listings.find? (fun l => l.id == (stampReview obj now adminUser).listing_id)
      = some L
    rw [stampReview_listing_id]
    exact hfind
  have heq : report_save_model st now adminUser obj change
      = (let st1 : ModState :=
           { st with reports := saveReport st.reports (stampReview obj now adminUser) }
         let blocked : ModState :=
           if L.status != STATUS_BLOCKED then
             { st1 with
               listings := st1.listings.map (fun l =>
                 if l.id == L.id then { l with status := STATUS_BLOCKED } else l),
               listing_saves := st1.listing_saves ++ [L.id] }
           else st1
         let withReporter : ModState :=
           { blocked with notifications := blocked.notifications ++
             [⟨some (stampReview obj now adminUser).reporter,
               some (stampReview obj now adminUser).id, TYPE_REPORT_RESULT,
               "Скаргу підтверджено", approvedReporterMessage L.title⟩] }
         match L.owner with
         | some o =>
           { withReporter with notifications := withReporter.notifications ++
               [⟨some o, some (stampReview obj now adminUser).id, TYPE_REPORT_RESULT,
                 "Оголошення заблоковано",
                 approvedOwnerMessage L.title
                   (pyStrip (stampReview obj now adminUser).moderation_reason)⟩] }
         | none => withReporter) := by
    simp only [report_save_model]
    rw [if_neg (by rw [hb1]; exact Bool.false_ne_true),
      if_neg (by rw [hb2]; exact Bool.false_ne_true),
      if_neg (by rw [hb3]; exact Bool.false_ne_true),
      if_pos hb4, hfind1]
  have hlistings : (report_save_model st now adminUser obj change).listings
      = (if L.status != STATUS_BLOCKED then
           st.listings.map (fun l =>
             if l.id == L.id then { l with status := STATUS_BLOCKED } else l)
         else st.listings) := by
    rw [heq]
    cases L.owner <;> by_cases hbl : (L.status != STATUS_BLOCKED) = true <;> simp [hbl]
  have hsaves : (report_save_model st now adminUser obj change).listing_saves
      = (if L.status != STATUS_BLOCKED then st.listing_saves ++ [L.id]
         else st.listing_saves) := by
    rw [heq]
    cases L.owner <;> by_cases hbl : (L.status != STATUS_BLOCKED) = true <;> simp [hbl]
  refine ⟨?_, ?_, ?_, ?_, ?_, ?_⟩
  · show ((report_save_model st now adminUser obj change).listings.find?
        (fun l => l.id == obj.listing_id)).map (fun l => l.status) = some STATUS_BLOCKED
    rw [hlistings]
    have hLi : L.id = obj.listing_id := by
      have h := List.find?_some
        (show st.listings.find? (fun l => l.id == obj.listing_id) = some L from hfind)
      simpa using h
    by_cases hbl : (L.status != STATUS_BLOCKED) = true
    · rw [if_pos hbl, hLi]
      rw [find?_update_by_id st.listings obj.listing_id
        (fun l => { l with status := STATUS_BLOCKED }) (fun y hy => hy)]
      have : st.listings.find? (fun l => l.id == obj.listing_id) = some L := hfind
      rw [this]
      rfl
    · rw [if_neg hbl]
      have : st.listings.find? (fun l => l.id == obj.listing_id) = some L := hfind
      rw [this]
      have hbl' : L.status = STATUS_BLOCKED := by
        rw [Bool.not_eq_true] at hbl
        exact bne_eq_false_iff_eq.mp hbl
      simp [hbl']
  · intro hblocked
    have hbl : (L.status != STATUS_BLOCKED) = false := bne_eq_false_iff_eq.mpr hblocked
    constructor
    · rw [hlistings, hbl]
      rfl
    · rw [hsaves, hbl]
      rfl
  · intro hnb
    have hbl : (L.status != STATUS_BLOCKED) = true := bne_iff_ne.mpr hnb
    rw [hsaves, if_pos hbl]
  · intro hnone
    rw [heq, hnone]
    by_cases hbl : (L.status != STATUS_BLOCKED) = true <;>
      simp [hbl, stampReview_reporter, stampReview_id]
  · intro hsome
    rw [heq, hsome]
    by_cases hbl : (L.status != STATUS_BLOCKED) = true <;>
      simp [hbl, stampReview_reporter, stampReview_id, stampReview_reason]
  · intro hrne
    have hb : (pyStrip obj.moderation_reason != "") = true := bne_iff_ne.mpr hrne
    unfold approvedOwnerMessage
    rw [if_pos hb]
    refine ⟨(("Ваше оголошення \x27" ++ L.title
      ++ "\x27 заблоковано за результатами розгляду скарги.")
      ++ "\nПричина: ").data, ?_⟩
    rw [← String.data_append, String.append_assoc]

def c6Listing : ListingRec :=
  { id := 1, owner := some 3, title := "T", status := "published", is_active := true }

def c6PrevReport : ReportRec :=
  { id := 1, listing_id := 1, reporter := 2, moderation_status := "pending",
    moderation_reason := "", reviewed_at := none, reviewed_by := none }

def c6Report : ReportRec :=
  { id := 1, listing_id := 1, reporter := 2, moderation_status := "approved",
    moderation_reason := " fraud ", reviewed_at := none, reviewed_by := none }

def c6State : ModState := ⟨[c6Listing], [c6PrevReport], [], []⟩

/-- Closed instance of C6: approving a pending report on a published,
owned listing blocks it, logs one listing write and notifies reporter and
owner. -/
theorem C6_approve_blocks_and_notifies_witness :
    ((findListing (report_save_model c6State 300 9 c6Report true) c6Report.listing_id).map
        (fun l => l.status)) = some STATUS_BLOCKED
    ∧ (report_save_model c6State 300 9 c6Report true).listing_saves
        = c6State.listing_saves ++ [c6Listing.id]
    ∧ (report_save_model c6State 300 9 c6Report true).notifications
        = c6State.notifications ++
          [⟨some c6Report.reporter, some c6Report.id, TYPE_REPORT_RESULT,
            "Скаргу підтверджено", approvedReporterMessage c6Listing.title⟩,
           ⟨some 3, some c6Report.id, TYPE_REPORT_RESULT, "Оголошення заблоковано",
            approvedOwnerMessage c6Listing.title (pyStrip c6Report.moderation_reason)⟩] :=
  have h := C6_approve_blocks_and_notifies c6State 300 9 c6Report true c6Listing 3
    (by decide) (by decide) (by decide)
  ⟨h.1, h.2.2.1 (by decide), h.2.2.2.2.1 (by decide)⟩

/- ### Favorite toggle (`src/listings/views.py` lines 378-385) -/

/-- Rows of `Favorite`: unique (user, listing) pairs. -/
structure FavoriteRec where
  user : Nat
  listing : Nat
deriving DecidableEq

inductive ToggleResult where
  | notFound
  | redirect
deriving DecidableEq

/-- Embedding of `favorite_toggle` (views.py lines 378-385):
`get_object_or_404(Listing, pk=pk, status=Listing.STATUS_PUBLISHED)` filters
on the primary key and the status only — not on `is_active` — then
`get_or_create` / `delete` flips the unique (user, listing) row. -/
def favorite_toggle (listings : List ListingRec) (favs : List FavoriteRec)
    (userId pk : Nat) : ToggleResult × List FavoriteRec :=
  match listings.find? (fun l => l.id == pk) with
  | none => (.notFound, favs)
  | some l =>
    if l.status != STATUS_PUBLISHED then (.notFound, favs)
    else
      if favs.any (fun f => f.user == userId && f.listing == l.id) then
        (.redirect, favs.filter (fun f => !(f.user == userId && f.listing == l.id)))
      else
        (.redirect, favs ++ [⟨userId, l.id⟩])

/-- C10: the favorite toggle resolves the listing by primary key and
`status = published` only — flipping `is_active` changes nothing — so any
other status (blocked included) yields not-found with the favorites
untouched, and an existing favorite of a blocked listing cannot be removed
through it; on a published listing it flips membership of the (user,
listing) pair. -/
theorem C10_favorite_toggle_requires_published (listings : List ListingRec)
    (favs : List FavoriteRec) (userId pk : Nat) (l : ListingRec)
    (hfind : listings.find? (fun x => x.id == pk) = some l) :
    (l.status ≠ STATUS_PUBLISHED →
       favorite_toggle listings favs userId pk = (.notFound, favs))
    ∧ (l.status = STATUS_PUBLISHED →
       (favorite_toggle listings favs userId pk).1 = .redirect
       ∧ ((favs.any (fun f => f.user == userId && f.listing == l.id)) = true →
           ((favorite_toggle listings favs userId pk).2.any
             (fun f => f.user == userId && f.listing == l.id)) = false)
       ∧ ((favs.any (fun f => f.user == userId && f.listing == l.id)) = false →
           ((favorite_toggle listings favs userId pk).2.any
             (fun f => f.user == userId && f.listing == l.id)) = true))
    ∧ favorite_toggle (listings.map (fun x =>
          if x.id == pk then { x with is_active := !x.is_active } else x)) favs userId pk
        = favorite_toggle listings favs userId pk := by
  refine ⟨?_, ?_, ?_⟩
  · intro hne
    simp only [favorite_toggle, hfind]
    rw [if_pos (bne_iff_ne.mpr hne)]
  · intro hpub
    have hb : (l.status != STATUS_PUBLISHED) = false := bne_eq_false_iff_eq.mpr hpub
    simp only [favorite_toggle, hfind]
    rw [if_neg (by rw [hb]; exact Bool.false_ne_true)]
    by_cases hany : (favs.any (fun f => f.user == userId && f.listing == l.id)) = true
    · rw [if_pos hany]
      refine ⟨rfl, ?_, ?_⟩
      · intro _
        rw [Bool.eq_false_iff, ne_eq, List.any_eq_true]
        rintro ⟨f, hfm, hfp⟩
        rw [List.mem_filter] at hfm
        rw [hfp] at hfm
        exact Bool.noConfusion hfm.2
      · intro h
        rw [h] at hany
        exact Bool.noConfusion hany
    · rw [if_neg hany]
      refine ⟨rfl, ?_, ?_⟩
      · intro h
        exact absurd h hany
      · intro _
        rw [List.any_append]
        simp
  · have hm : (listings.map (fun x =>
        if x.id == pk then { x with is_active := !x.is_active } else x)).find?
          (fun x => x.id == pk)
        = (listings.find? (fun x => x.id == pk)).map
            (fun x => { x with is_active := !x.is_active }) :=
      find?_update_by_id listings pk _ (fun y hy => hy)
    simp only [favorite_toggle, hm, hfind]
    rfl

def c10Listings : List ListingRec :=
  [{ id := 7, owner := some 1, title := "x", status := "blocked", is_active := true }]

def c10Favs : List FavoriteRec := [⟨4, 7⟩]

/-- Closed instance of C10: toggling a favorite of a blocked listing is
not-found and the existing favorite row survives. -/
theorem C10_favorite_toggle_requires_published_witness :
    favorite_toggle c10Listings c10Favs 4 7 = (.notFound, c10Favs) :=
  (C10_favorite_toggle_requires_published c10Listings c10Favs 4 7
      { id := 7, owner := some 1, title := "x", status := "blocked", is_active := true }
      (by decide)).1 (by decide)
